import Mathlib

/-!
Verification of the event-signing, policy-enforcement and reflect-chain logic
of the Andrew-Lee-Cruz repository.  The Python modules `base.py`, `hub.py`,
`daemon_heartbeat.py`, `policy_enforcer.py`, the VIOLET-AF quantum agent and
the two reflect loggers are shallowly embedded: JSON-serializable values
become the inductive type `J`, Python's `json.dumps` becomes `jdump` (with
explicit separator and key-sorting behaviour), and `hashlib`'s SHA3-256,
SHA-256 and HMAC are implemented executably over byte lists.
-/

/-- JSON-serializable values as manipulated by the Python sources.  Objects
keep their key insertion order, as Python dicts do. -/
inductive J where
  | null : J
  | bool : Bool → J
  | int : Int → J
  | str : String → J
  | arr : List J → J
  | obj : List (String × J) → J
deriving Repr

/-- Lowercase hex digit, as produced by Python's `%x` formatting: code
point 48 + n for digits, 87 + n for the letters a-f. -/
def hexDigitCh (n : Nat) : Char :=
  if n < 10 then Char.ofNat (48 + n) else if n < 16 then Char.ofNat (87 + n) else '0'

/-- Four lowercase hex digits, Python's `%04x` (for values below 2^16). -/
def hex4 (n : Nat) : List Char :=
  [hexDigitCh (n / 4096 % 16), hexDigitCh (n / 256 % 16), hexDigitCh (n / 16 % 16), hexDigitCh (n % 16)]

/-- Escape one character the way Python's `json.dumps` does with its default
`ensure_ascii=True`: printable ASCII passes through, `"`/`\` and the short
control escapes are backslashed, everything else becomes `\uXXXX`
(surrogate pairs above U+FFFF). -/
def escChar (c : Char) : List Char :=
  if c = '"' then ['\\', '"']
  else if c = '\\' then ['\\', '\\']
  else if c.toNat = 10 then ['\\', 'n']
  else if c.toNat = 9 then ['\\', 't']
  else if c.toNat = 13 then ['\\', 'r']
  else if c.toNat = 8 then ['\\', 'b']
  else if c.toNat = 12 then ['\\', 'f']
  else if 32 ≤ c.toNat && c.toNat ≤ 126 then [c]
  else if c.toNat < 65536 then '\\' :: 'u' :: hex4 c.toNat
  else
    ('\\' :: 'u' :: hex4 (55296 + (c.toNat - 65536) / 1024)) ++
      ('\\' :: 'u' :: hex4 (56320 + (c.toNat - 65536) % 1024))

/-- A JSON string literal: quotes around the escaped characters. -/
def jstrDump (s : String) : String :=
  "\"" ++ String.mk (s.data.flatMap escChar) ++ "\""

/-- Python string `<`: lexicographic comparison of code points. -/
def charListLt : List Char → List Char → Bool
  | [], [] => false
  | [], _ :: _ => true
  | _ :: _, [] => false
  | x :: xs, y :: ys =>
    if x.toNat < y.toNat then true
    else if x.toNat = y.toNat then charListLt xs ys
    else false

/-- Python string `<` on `String`. -/
def strLtB (a b : String) : Bool := charListLt a.data b.data

/-- Insert a key-value pair into a key-sorted list (Python `sorted` order). -/
def insPair (p : String × J) : List (String × J) → List (String × J)
  | [] => [p]
  | q :: r => if strLtB p.1 q.1 then p :: q :: r else q :: insPair p r

/-- Sort an association list by key, as Python's `sorted(d)` iteration does. -/
def sortPairs (l : List (String × J)) : List (String × J) := l.foldr insPair []

mutual
/-- Serialize with the given item/key separators, keys in the order the
object carries them (Python `json.dumps` without `sort_keys`). -/
def jdump (isep ksep : String) : J → String
  | J.null => "null"
  | J.bool b => if b then "true" else "false"
  | J.int n => toString n
  | J.str s => jstrDump s
  | J.arr xs => "[" ++ jdumpItems isep ksep xs ++ "]"
  | J.obj kvs => "\x7b" ++ jdumpPairs isep ksep kvs ++ "\x7d"

/-- Array elements joined by the item separator. -/
def jdumpItems (isep ksep : String) : List J → String
  | [] => ""
  | [x] => jdump isep ksep x
  | x :: y :: r => jdump isep ksep x ++ isep ++ jdumpItems isep ksep (y :: r)

/-- Object members joined by the item separator. -/
def jdumpPairs (isep ksep : String) : List (String × J) → String
  | [] => ""
  | [(k, v)] => jstrDump k ++ ksep ++ jdump isep ksep v
  | (k, v) :: q :: r =>
    jstrDump k ++ ksep ++ jdump isep ksep v ++ isep ++ jdumpPairs isep ksep (q :: r)
end

mutual
/-- Recursively sort all object keys: the effect of `sort_keys=True`. -/
def sortJ : J → J
  | J.null => J.null
  | J.bool b => J.bool b
  | J.int n => J.int n
  | J.str s => J.str s
  | J.arr xs => J.arr (sortJList xs)
  | J.obj kvs => J.obj (sortPairs (sortJPairs kvs))

/-- `sortJ` mapped over array elements. -/
def sortJList : List J → List J
  | [] => []
  | x :: r => sortJ x :: sortJList r

/-- `sortJ` mapped over object member values. -/
def sortJPairs : List (String × J) → List (String × J)
  | [] => []
  | (k, v) :: r => (k, sortJ v) :: sortJPairs r
end

/-- `json.dumps(v, separators=(',',':'), sort_keys=True)`. -/
def dumpsCanon (v : J) : String := jdump "," ":" (sortJ v)

/-- `json.dumps(v, separators=(',',':'))` (insertion order kept). -/
def dumpsCompact (v : J) : String := jdump "," ":" v

/-- `json.dumps(v, sort_keys=True)` with Python's default separators. -/
def dumpsSortedDefault (v : J) : String := jdump ", " ": " (sortJ v)

/-- UTF-8 encoding of one character. -/
def utf8Char (c : Char) : List Nat :=
  let n := c.toNat
  if n < 128 then [n]
  else if n < 2048 then [192 + n / 64, 128 + n % 64]
  else if n < 65536 then [224 + n / 4096, 128 + n / 64 % 64, 128 + n % 64]
  else [240 + n / 262144, 128 + n / 4096 % 64, 128 + n / 64 % 64, 128 + n % 64]

/-- Python's `str.encode()`: UTF-8 bytes. -/
def utf8 (s : String) : List Nat := s.data.flatMap utf8Char

/-! ### Byte and word helpers -/

/-- `count` little-endian bytes of `n`. -/
def leBytes : Nat → Nat → List Nat
  | 0, _ => []
  | k + 1, n => n % 256 :: leBytes k (n / 256)

/-- Four big-endian bytes of a 32-bit word. -/
def beBytes4 (n : Nat) : List Nat :=
  [n / 16777216 % 256, n / 65536 % 256, n / 256 % 256, n % 256]

/-- Eight big-endian bytes of a 64-bit value. -/
def beBytes8 (n : Nat) : List Nat :=
  (leBytes 8 n).reverse

/-- Little-endian bytes to a lane value. -/
def leLane (l : List Nat) : Nat := l.foldr (fun b acc => acc * 256 + b) 0

/-- Big-endian bytes to a word value. -/
def beWord (l : List Nat) : Nat := l.foldl (fun acc b => acc * 256 + b) 0

/-- Two lowercase hex characters of a byte. -/
def byteHex (b : Nat) : List Char := [hexDigitCh (b / 16), hexDigitCh (b % 16)]

/-- `bytes.hex()` / `hexdigest()`: lowercase hex string of a byte list. -/
def bytesToHex (l : List Nat) : String := String.mk (l.flatMap byteHex)

/-- Split a byte list into chunks of `m + 1` bytes (fuel-driven so that it
reduces by structural recursion; the fuel is the list length). -/
def chunksFuel (m : Nat) : Nat → List Nat → List (List Nat)
  | 0, _ => []
  | _, [] => []
  | fuel + 1, a :: rest => ((a :: rest).take (m + 1)) :: chunksFuel m fuel (rest.drop m)

/-- Split a byte list into chunks of `m + 1` bytes. -/
def chunksOfSucc (m : Nat) (l : List Nat) : List (List Nat) := chunksFuel m l.length l

/-! ### SHA3-256 (Keccak) -/

/-- 64-bit left rotation. -/
def rotl64 (x n : Nat) : Nat := (x <<< n ||| x >>> (64 - n)) % (2 ^ 64)

/-- 64-bit complement. -/
def not64 (x : Nat) : Nat := x ^^^ (2 ^ 64 - 1)

/-- Keccak round constants. -/
def keccakRC : List Nat :=
  [1, 32898, 9223372036854808714, 9223372039002292224,
   32907, 2147483649, 9223372039002292353, 9223372036854808585,
   138, 136, 2147516425, 2147483658,
   2147516555, 9223372036854775947, 9223372036854808713, 9223372036854808579,
   9223372036854808578, 9223372036854775936, 32778, 9223372039002259466,
   9223372039002292353, 9223372036854808704, 2147483649, 9223372039002292232]

/-- Keccak-f[1600] state as 25 explicit 64-bit lanes; lane (x, y) is field `s(x+5y)`. -/
structure KSt where
  s0 : Nat
  s1 : Nat
  s2 : Nat
  s3 : Nat
  s4 : Nat
  s5 : Nat
  s6 : Nat
  s7 : Nat
  s8 : Nat
  s9 : Nat
  s10 : Nat
  s11 : Nat
  s12 : Nat
  s13 : Nat
  s14 : Nat
  s15 : Nat
  s16 : Nat
  s17 : Nat
  s18 : Nat
  s19 : Nat
  s20 : Nat
  s21 : Nat
  s22 : Nat
  s23 : Nat
  s24 : Nat

/-- One Keccak-f[1600] round (theta, rho, pi, chi, iota). -/
def keccakRound (s : KSt) (rc : Nat) : KSt :=
  let c0 := s.s0 ^^^ s.s5 ^^^ s.s10 ^^^ s.s15 ^^^ s.s20
  let c1 := s.s1 ^^^ s.s6 ^^^ s.s11 ^^^ s.s16 ^^^ s.s21
  let c2 := s.s2 ^^^ s.s7 ^^^ s.s12 ^^^ s.s17 ^^^ s.s22
  let c3 := s.s3 ^^^ s.s8 ^^^ s.s13 ^^^ s.s18 ^^^ s.s23
  let c4 := s.s4 ^^^ s.s9 ^^^ s.s14 ^^^ s.s19 ^^^ s.s24
  let d0 := c4 ^^^ rotl64 c1 1
  let d1 := c0 ^^^ rotl64 c2 1
  let d2 := c1 ^^^ rotl64 c3 1
  let d3 := c2 ^^^ rotl64 c4 1
  let d4 := c3 ^^^ rotl64 c0 1
  let a0 := s.s0 ^^^ d0
  let a1 := s.s1 ^^^ d1
  let a2 := s.s2 ^^^ d2
  let a3 := s.s3 ^^^ d3
  let a4 := s.s4 ^^^ d4
  let a5 := s.s5 ^^^ d0
  let a6 := s.s6 ^^^ d1
  let a7 := s.s7 ^^^ d2
  let a8 := s.s8 ^^^ d3
  let a9 := s.s9 ^^^ d4
  let a10 := s.s10 ^^^ d0
  let a11 := s.s11 ^^^ d1
  let a12 := s.s12 ^^^ d2
  let a13 := s.s13 ^^^ d3
  let a14 := s.s14 ^^^ d4
  let a15 := s.s15 ^^^ d0
  let a16 := s.s16 ^^^ d1
  let a17 := s.s17 ^^^ d2
  let a18 := s.s18 ^^^ d3
  let a19 := s.s19 ^^^ d4
  let a20 := s.s20 ^^^ d0
  let a21 := s.s21 ^^^ d1
  let a22 := s.s22 ^^^ d2
  let a23 := s.s23 ^^^ d3
  let a24 := s.s24 ^^^ d4
  let b0 := a0
  let b1 := rotl64 a6 44
  let b2 := rotl64 a12 43
  let b3 := rotl64 a18 21
  let b4 := rotl64 a24 14
  let b5 := rotl64 a3 28
  let b6 := rotl64 a9 20
  let b7 := rotl64 a10 3
  let b8 := rotl64 a16 45
  let b9 := rotl64 a22 61
  let b10 := rotl64 a1 1
  let b11 := rotl64 a7 6
  let b12 := rotl64 a13 25
  let b13 := rotl64 a19 8
  let b14 := rotl64 a20 18
  let b15 := rotl64 a4 27
  let b16 := rotl64 a5 36
  let b17 := rotl64 a11 10
  let b18 := rotl64 a17 15
  let b19 := rotl64 a23 56
  let b20 := rotl64 a2 62
  let b21 := rotl64 a8 55
  let b22 := rotl64 a14 39
  let b23 := rotl64 a15 41
  let b24 := rotl64 a21 2
  ⟨(b0 ^^^ (not64 b1 &&& b2)) ^^^ rc,
   b1 ^^^ (not64 b2 &&& b3),
   b2 ^^^ (not64 b3 &&& b4),
   b3 ^^^ (not64 b4 &&& b0),
   b4 ^^^ (not64 b0 &&& b1),
   b5 ^^^ (not64 b6 &&& b7),
   b6 ^^^ (not64 b7 &&& b8),
   b7 ^^^ (not64 b8 &&& b9),
   b8 ^^^ (not64 b9 &&& b5),
   b9 ^^^ (not64 b5 &&& b6),
   b10 ^^^ (not64 b11 &&& b12),
   b11 ^^^ (not64 b12 &&& b13),
   b12 ^^^ (not64 b13 &&& b14),
   b13 ^^^ (not64 b14 &&& b10),
   b14 ^^^ (not64 b10 &&& b11),
   b15 ^^^ (not64 b16 &&& b17),
   b16 ^^^ (not64 b17 &&& b18),
   b17 ^^^ (not64 b18 &&& b19),
   b18 ^^^ (not64 b19 &&& b15),
   b19 ^^^ (not64 b15 &&& b16),
   b20 ^^^ (not64 b21 &&& b22),
   b21 ^^^ (not64 b22 &&& b23),
   b22 ^^^ (not64 b23 &&& b24),
   b23 ^^^ (not64 b24 &&& b20),
   b24 ^^^ (not64 b20 &&& b21)⟩

/-- SHA3 multi-rate padding for rate 136 (domain suffix 0x06, final 0x80). -/
def padSha3 (msg : List Nat) : List Nat :=
  let padLen := 136 - msg.length % 136
  if padLen = 1 then msg ++ [0x86]
  else msg ++ (0x06 :: List.replicate (padLen - 2) 0) ++ [0x80]

/-- Keccak-f[1600] permutation: 24 rounds. -/
def keccakF (s : KSt) : KSt := keccakRC.foldl keccakRound s

/-- Lane `i` of a 136-byte rate block (little-endian); zero past the rate. -/
def laneAt (block : List Nat) (i : Nat) : Nat := leLane ((block.drop (8 * i)).take 8)

/-- XOR a 136-byte block into the state (little-endian lanes). -/
def xorBlock (s : KSt) (block : List Nat) : KSt :=
  ⟨s.s0 ^^^ laneAt block 0,
   s.s1 ^^^ laneAt block 1,
   s.s2 ^^^ laneAt block 2,
   s.s3 ^^^ laneAt block 3,
   s.s4 ^^^ laneAt block 4,
   s.s5 ^^^ laneAt block 5,
   s.s6 ^^^ laneAt block 6,
   s.s7 ^^^ laneAt block 7,
   s.s8 ^^^ laneAt block 8,
   s.s9 ^^^ laneAt block 9,
   s.s10 ^^^ laneAt block 10,
   s.s11 ^^^ laneAt block 11,
   s.s12 ^^^ laneAt block 12,
   s.s13 ^^^ laneAt block 13,
   s.s14 ^^^ laneAt block 14,
   s.s15 ^^^ laneAt block 15,
   s.s16 ^^^ laneAt block 16,
   s.s17 ^^^ laneAt block 17,
   s.s18 ^^^ laneAt block 18,
   s.s19 ^^^ laneAt block 19,
   s.s20 ^^^ laneAt block 20,
   s.s21 ^^^ laneAt block 21,
   s.s22 ^^^ laneAt block 22,
   s.s23 ^^^ laneAt block 23,
   s.s24 ^^^ laneAt block 24⟩

/-- The all-zero initial state. -/
def kInit : KSt := ⟨0, 0, 0, 0, 0, 0, 0, 0, 0, 0, 0, 0, 0, 0, 0, 0, 0, 0, 0, 0, 0, 0, 0, 0, 0⟩

/-- SHA3-256 digest (32 bytes) of a byte list, as `hashlib.sha3_256`:
absorb the padded message, squeeze the first 32 state bytes. -/
def sha3_256 (msg : List Nat) : List Nat :=
  let st := (chunksOfSucc 135 (padSha3 msg)).foldl (fun s b => keccakF (xorBlock s b)) kInit
  leBytes 8 st.s0 ++ leBytes 8 st.s1 ++ leBytes 8 st.s2 ++ leBytes 8 st.s3

/-- `hashlib.sha3_256(msg).hexdigest()`. -/
def sha3_256_hex (msg : List Nat) : String := bytesToHex (sha3_256 msg)

/-- HMAC-SHA3-256 digest, as Python `hmac.new(key, msg, hashlib.sha3_256)`
(block size 136). -/
def hmacSha3 (key msg : List Nat) : List Nat :=
  let k0 := if 136 < key.length then sha3_256 key else key
  let k := k0 ++ List.replicate (136 - k0.length) 0
  sha3_256 ((k.map (fun b => b ^^^ 0x5c)) ++ sha3_256 ((k.map (fun b => b ^^^ 0x36)) ++ msg))

/-- `hmac.new(key, msg, hashlib.sha3_256).hexdigest()`. -/
def hmacSha3Hex (key msg : List Nat) : String := bytesToHex (hmacSha3 key msg)

/-! ### SHA-256 -/

/-- SHA-256 round constants. -/
def sha256K : List Nat :=
  [1116352408, 1899447441, 3049323471, 3921009573, 961987163, 1508970993,
   2453635748, 2870763221, 3624381080, 310598401, 607225278, 1426881987,
   1925078388, 2162078206, 2614888103, 3248222580, 3835390401, 4022224774,
   264347078, 604807628, 770255983, 1249150122, 1555081692, 1996064986,
   2554220882, 2821834349, 2952996808, 3210313671, 3336571891, 3584528711,
   113926993, 338241895, 666307205, 773529912, 1294757372, 1396182291,
   1695183700, 1986661051, 2177026350, 2456956037, 2730485921, 2820302411,
   3259730800, 3345764771, 3516065817, 3600352804, 4094571909, 275423344,
   430227734, 506948616, 659060556, 883997877, 958139571, 1322822218,
   1537002063, 1747873779, 1955562222, 2024104815, 2227730452, 2361852424,
   2428436474, 2756734187, 3204031479, 3329325298]

/-- SHA-256 initial hash values. -/
def sha256H0 : List Nat :=
  [1779033703, 3144134277, 1013904242, 2773480762,
   1359893119, 2600822924, 528734635, 1541459225]

/-- 32-bit right rotation. -/
def rotr32 (x n : Nat) : Nat := (x >>> n ||| x <<< (32 - n)) % (2 ^ 32)

/-- Extend the 16 schedule words to 64. -/
def sha256Extend : Nat → List Nat → List Nat
  | 0, w => w
  | k + 1, w =>
    let w15 := w.getD (w.length - 15) 0
    let w2 := w.getD (w.length - 2) 0
    let s0 := rotr32 w15 7 ^^^ rotr32 w15 18 ^^^ (w15 >>> 3)
    let s1 := rotr32 w2 17 ^^^ rotr32 w2 19 ^^^ (w2 >>> 10)
    sha256Extend k (w ++ [(w.getD (w.length - 16) 0 + s0 + w.getD (w.length - 7) 0 + s1) % 2 ^ 32])

/-- One SHA-256 compression step on the 8-word working state. -/
def sha256Step (v : List Nat) (kw : Nat) : List Nat :=
  let a := v.getD 0 0
  let b := v.getD 1 0
  let c := v.getD 2 0
  let d := v.getD 3 0
  let e := v.getD 4 0
  let f := v.getD 5 0
  let g := v.getD 6 0
  let h := v.getD 7 0
  let s1 := rotr32 e 6 ^^^ rotr32 e 11 ^^^ rotr32 e 25
  let ch := (e &&& f) ^^^ (not64 e % 2 ^ 32 &&& g)
  let t1 := (h + s1 + ch + kw) % 2 ^ 32
  let s0 := rotr32 a 2 ^^^ rotr32 a 13 ^^^ rotr32 a 22
  let mj := (a &&& b) ^^^ ((a &&& c) ^^^ (b &&& c))
  let t2 := (s0 + mj) % 2 ^ 32
  [(t1 + t2) % 2 ^ 32, a, b, c, (d + t1) % 2 ^ 32, e, f, g]

/-- Process one 64-byte block. -/
def sha256Block (hs : List Nat) (block : List Nat) : List Nat :=
  let w := sha256Extend 48 ((chunksOfSucc 3 block).map beWord)
  let v := (List.range 64).foldl
    (fun v i => sha256Step v ((sha256K.getD i 0 + w.getD i 0) % 2 ^ 32)) hs
  List.ofFn (fun i : Fin 8 => (hs.getD i.val 0 + v.getD i.val 0) % 2 ^ 32)

/-- SHA-256 padding: 0x80, zeros, 8-byte big-endian bit length. -/
def padSha256 (msg : List Nat) : List Nat :=
  msg ++ 0x80 :: List.replicate ((119 - msg.length % 64) % 64) 0 ++ beBytes8 (8 * msg.length)

/-- SHA-256 digest (32 bytes) of a byte list, as `hashlib.sha256`. -/
def sha256 (msg : List Nat) : List Nat :=
  (((chunksOfSucc 63 (padSha256 msg)).foldl sha256Block sha256H0).map beBytes4).flatten

/-- `hashlib.sha256(msg).hexdigest()`. -/
def sha256_hex (msg : List Nat) : String := bytesToHex (sha256 msg)

/-! ### base.py: UID, KEY, sign, emit -/

namespace Base

/-- `UID = "ALC-ROOT-1010-1111-XCOV∞"` (base.py line 2). -/
def UID : String := "ALC-ROOT-1010-1111-XCOV∞"

/-- `KEY = hashlib.sha3_256((UID+"::QEL").encode()).hexdigest().encode()`. -/
def KEY : List Nat := utf8 (sha3_256_hex (utf8 (UID ++ "::QEL")))

/-- `sign(obj)` from base.py: HMAC-SHA3-256 hex digest over
`json.dumps(obj, separators=(',',':'), sort_keys=True).encode()`. -/
def sign (obj : J) : String := hmacSha3Hex KEY (utf8 (dumpsCanon obj))

/-- The `evt` dictionary built by `emit(kind, source, project, payload)`
before the signature is attached; `ts = int(time.time())` and
`ms = int(time.time()*1000)` are passed in as the ambient clock readings. -/
def emitEvent (kind source project : String) (payload : J) (ts : Int) (ms : Nat) : J :=
  J.obj [("type", J.str "omni.event"), ("uid", J.str UID), ("kind", J.str kind),
    ("source", J.str source), ("project", J.str project), ("ts", J.int ts),
    ("nonce", J.int (Int.ofNat (ms % 2 ^ 32))), ("payload", payload)]

/-- The event POSTed by `emit`: `evt["sig"] = sign(evt)` appends the `sig` key. -/
def emitSigned (kind source project : String) (payload : J) (ts : Int) (ms : Nat) : J :=
  J.obj ([("type", J.str "omni.event"), ("uid", J.str UID), ("kind", J.str kind),
    ("source", J.str source), ("project", J.str project), ("ts", J.int ts),
    ("nonce", J.int (Int.ofNat (ms % 2 ^ 32))), ("payload", payload)] ++
    [("sig", J.str (sign (emitEvent kind source project payload ts ms)))])

end Base

/-! ### daemon_heartbeat.py: sign, battery, push -/

namespace Daemon

/-- `UID` from daemon_heartbeat.py (same literal as base.py). -/
def UID : String := "ALC-ROOT-1010-1111-XCOV∞"

/-- `KEY` from daemon_heartbeat.py (same derivation as base.py). -/
def KEY : List Nat := utf8 (sha3_256_hex (utf8 (UID ++ "::QEL")))

/-- `sign(d)` from daemon_heartbeat.py. -/
def sign (d : J) : String := hmacSha3Hex KEY (utf8 (dumpsCanon d))

/-- `battery()`: the `try` body (run `termux-battery-status`, parse its JSON
output) is modelled by its outcome `r`; any exception yields `{}`. -/
def battery (r : Except String J) : J :=
  match r with
  | Except.ok v => v
  | Except.error _ => J.obj []

/-- The `payload` dictionary built by `push(kind, data)` before signing. -/
def pushEvent (kind : String) (data : J) (ts : Int) (ms : Nat) : J :=
  J.obj [("type", J.str "omni.event"), ("uid", J.str UID), ("kind", J.str kind),
    ("source", J.str "s24-ultra"), ("project", J.str "general"), ("ts", J.int ts),
    ("nonce", J.int (Int.ofNat (ms % 2 ^ 32))), ("payload", data)]

/-- The event POSTed by `push`: `payload["sig"] = sign(payload)`. -/
def pushSigned (kind : String) (data : J) (ts : Int) (ms : Nat) : J :=
  J.obj ([("type", J.str "omni.event"), ("uid", J.str UID), ("kind", J.str kind),
    ("source", J.str "s24-ultra"), ("project", J.str "general"), ("ts", J.int ts),
    ("nonce", J.int (Int.ofNat (ms % 2 ^ 32))), ("payload", data)] ++
    [("sig", J.str (sign (pushEvent kind data ts ms)))])

/-- The `try/except Exception: pass` wrapper around the HTTP POST in `push`:
whatever the POST's outcome, `push` returns normally. -/
def pushOutcome (http : Except String Unit) : Except String Unit :=
  match http with
  | Except.ok _ => Except.ok ()
  | Except.error _ => Except.ok ()

end Daemon

/-! ### hub.py: verify, /ingest -/

namespace Hub

/-- `UID` from hub.py. -/
def UID : String := "ALC-ROOT-1010-1111-XCOV∞"

/-- `KEY` from hub.py (same derivation as base.py). -/
def KEY : List Nat := utf8 (sha3_256_hex (utf8 (UID ++ "::QEL")))

/-- The MAC recomputed by `verify`:
`body = {k:payload[k] for k in sorted(payload) if k!="sig"}` sorts only the
top-level keys (nested objects keep their own order, since this
`json.dumps` call has no `sort_keys=True`). -/
def macOf (kvs : List (String × J)) : String :=
  hmacSha3Hex KEY (utf8 (jdump "," ":"
    (J.obj (sortPairs (kvs.filter (fun p => ¬ p.1 = "sig"))))))

/-- `verify(payload)`.  `Except.error` models an uncaught Python exception:
`payload.get` on a non-dict raises `AttributeError`, and
`hmac.compare_digest` on a non-string `sig` raises `TypeError`. -/
def verify (payload : J) : Except String Bool :=
  match payload with
  | J.obj kvs =>
    match kvs.lookup "sig" with
    | some (J.str s) => Except.ok (s == macOf kvs)
    | some _ => Except.error "TypeError"
    | none => Except.ok ("" == macOf kvs)
  | _ => Except.error "AttributeError"

/-- The hub's mutable state: the rq job queue and the chroma index
(`embed_and_store` appends a document together with its metadata). -/
structure HubState where
  queue : List J
  index : List (String × J)

/-- The value a FastAPI handler invocation produces: a JSON response, an
`HTTPException`, or an uncaught Python exception. -/
inductive Resp where
  | ok : J → Resp
  | httpExc : Nat → String → Resp
  | err : String → Resp
deriving Repr

/-- `dict.get(k, d)` on an association list. -/
def pyGet (kvs : List (String × J)) (k : String) (d : J) : J :=
  (kvs.lookup k).getD d

/-- ASCII whitespace stripped by Python's `str.strip()`. -/
def isPySpace (c : Char) : Bool :=
  c = ' ' || c = '\t' || c.toNat = 10 || c.toNat = 13 || c.toNat = 11 || c.toNat = 12

/-- Python `str.strip()` (ASCII whitespace). -/
def pyStrip (s : String) : String :=
  String.mk (((s.data.dropWhile isPySpace).reverse.dropWhile isPySpace).reverse)

/-- The metadata dictionary passed to `embed_and_store` by `ingest`. -/
def metaOf (kvs : List (String × J)) : J :=
  J.obj [("source", pyGet kvs "source" J.null), ("project", pyGet kvs "project" J.null),
    ("ts", pyGet kvs "ts" J.null)]

/-- The `/ingest` handler on a parsed request body `data`: verify the
signature (403 on mismatch), enqueue the verified event, and index the
payload text of `chat`/`doc` events. -/
def ingest (data : J) (st : HubState) : Resp × HubState :=
  match verify data with
  | Except.error e => (Resp.err e, st)
  | Except.ok false => (Resp.httpExc 403 "bad sig", st)
  | Except.ok true =>
    match data with
    | J.obj kvs =>
      let st1 : HubState := ⟨st.queue ++ [data], st.index⟩
      let kindChatDoc :=
        match kvs.lookup "kind" with
        | some (J.str k) => k == "chat" || k == "doc"
        | _ => false
      if kindChatDoc then
        match pyGet kvs "payload" (J.obj []) with
        | J.obj pkvs =>
          match pkvs.lookup "text" with
          | some (J.str t) =>
            if pyStrip t = "" then (Resp.ok (J.obj [("ok", J.bool true)]), st1)
            else (Resp.ok (J.obj [("ok", J.bool true)]), ⟨st1.queue, st1.index ++ [(t, metaOf kvs)]⟩)
          | none => (Resp.ok (J.obj [("ok", J.bool true)]), st1)
          | some _ => (Resp.err "AttributeError", st1)
        | _ => (Resp.err "AttributeError", st1)
      else (Resp.ok (J.obj [("ok", J.bool true)]), st1)
    | _ => (Resp.err "AttributeError", st)

end Hub

/-! ### Dict update helpers (Python `{**a, **b}` and `d[k] = v`) -/

/-- `d[k] = v` on an insertion-ordered dict: replace in place or append. -/
def setKey : List (String × J) → String → J → List (String × J)
  | [], k, v => [(k, v)]
  | (k0, v0) :: r, k, v => if k0 = k then (k0, v) :: r else (k0, v0) :: setKey r k v

/-- Python `{**base, **add}`: later keys override in place, new keys append. -/
def pyUpdate (base add : List (String × J)) : List (String × J) :=
  add.foldl (fun acc p => setKey acc p.1 p.2) base

/-! ### axiom-dev-core reflect_logger.py: stamp_entry -/

namespace ADC

/-- `UID` from axiom-dev-core's reflect_logger.py. -/
def UID : String := "ALC-ROOT-1010-1111-XCOV∞"

/-- `KEY` from axiom-dev-core's reflect_logger.py (same derivation). -/
def KEY : List Nat := utf8 (sha3_256_hex (utf8 (UID ++ "::QEL")))

/-- The `stamped` dictionary built by `ReflectLogger.stamp_entry` before the
signature is attached: `{"uid": ..., "timestamp": int(time.time()*1000),
"nonce": int(time.time()*1000) % 2**32, **entry}`. -/
def stampedFields (entry : List (String × J)) (tsMs : Nat) : List (String × J) :=
  pyUpdate [("uid", J.str UID), ("timestamp", J.int (Int.ofNat tsMs)),
    ("nonce", J.int (Int.ofNat (tsMs % 2 ^ 32)))] entry

/-- The signature computed by `stamp_entry`: HMAC-SHA3-256 over
`json.dumps(stamped, sort_keys=True, separators=(',', ':'))`. -/
def stampSignature (entry : List (String × J)) (tsMs : Nat) : String :=
  hmacSha3Hex KEY (utf8 (dumpsCanon (J.obj (stampedFields entry tsMs))))

/-- The dictionary returned by `stamp_entry`: the stamped fields with
`stamped["signature"]` attached. -/
def stamp_entry (entry : List (String × J)) (tsMs : Nat) : List (String × J) :=
  setKey (stampedFields entry tsMs) "signature" (J.str (stampSignature entry tsMs))

end ADC

/-! ### policy_enforcer.py -/

namespace Policy

/-- The `PolicyAction` enum. -/
inductive PolicyAction where
  | ACCEPT
  | REJECT
  | REJECT_IMMEDIATE
  | REJECT_WITH_ERROR
  | REJECT_WITH_ALTERNATIVE
  | REJECT_AND_LOG
  | REJECT_PERMANENT
deriving DecidableEq, Repr

/-- The `PolicyResult` dataclass.  The `metadata` dict holds only string
values in the source, so it is typed as string pairs. -/
structure PolicyResult where
  action : PolicyAction
  rule_id : String
  message : String
  alternatives : Option (List String) := none
  metadata : Option (List (String × String)) := none
deriving DecidableEq, Repr

/-- `CruzTheoremPolicyEnforcer.CREATOR_UID`. -/
def CREATOR_UID : String := "ALC-ROOT-1010-1111-XCOV∞"

/-- `CruzTheoremPolicyEnforcer.CREATOR_EMAIL`. -/
def CREATOR_EMAIL : String := "allcatch37@gmail.com"

/-- `CruzTheoremPolicyEnforcer.CRUZ_EQUATION`. -/
def CRUZ_EQUATION : String := "E = ∞ - 1"

/-- A proposal, modelled as a typed record of exactly the fields the five
validators read; each field's default is the `.get` default the source uses
when the key (or its enclosing sub-dict) is absent. -/
structure Proposal where
  creator_uid : String := ""
  creator_email : String := ""
  quantum_state : String := ""
  quantum_task : String := ""
  blockchain_target : String := ""
  contract_address : String := ""
  security_endpoint : String := ""
  authorized_email : String := ""
  git_operation : Bool := false
  signed_commit : Bool := false
  operation_layer : String := ""
  command_authority : Bool := false
  state_mutation : Bool := false
  ai_output_dependency : Bool := false
  deterministic_rules : Bool := false

/-- `validate_creator_authorization`. -/
def validate_creator_authorization (p : Proposal) : PolicyResult :=
  if p.creator_uid ≠ CREATOR_UID then
    { action := PolicyAction.REJECT_IMMEDIATE, rule_id := "CREATOR_UID_VERIFICATION",
      message := "Unauthorized creator UID: " ++ p.creator_uid ++ ". Expected: " ++ CREATOR_UID }
  else if p.creator_email ≠ CREATOR_EMAIL then
    { action := PolicyAction.REJECT_IMMEDIATE, rule_id := "CREATOR_EMAIL_VERIFICATION",
      message := "Unauthorized creator email: " ++ p.creator_email ++ ". Expected: " ++ CREATOR_EMAIL }
  else
    { action := PolicyAction.ACCEPT, rule_id := "CREATOR_VERIFICATION",
      message := "Creator authorization validated" }

/-- `valid_states` from `validate_quantum_state`. -/
def valid_states : List String := ["000", "001", "010", "011", "100", "101", "110", "111"]

/-- The `task_mappings` dict from `validate_quantum_state`, in source order. -/
def task_mappings : List (String × String) :=
  [("101", "generate_webapk_manifest"), ("100", "deploy_cloudflare_worker"),
   ("011", "configure_zero_trust"), ("010", "update_github_security"),
   ("001", "mint_infinity_claim"), ("000", "reflect_chain_sync"),
   ("110", "autonomous_maintenance"), ("111", "emergency_protocols")]

/-- `validate_quantum_state`. -/
def validate_quantum_state (p : Proposal) : PolicyResult :=
  if ¬ valid_states.contains p.quantum_state then
    { action := PolicyAction.REJECT_WITH_ERROR, rule_id := "VIOLET_AF_STATE_VALIDATION",
      message := "Invalid quantum state: " ++ p.quantum_state ++ ". Must be 3-bit binary string." }
  else
    let expected := (task_mappings.lookup p.quantum_state).getD ""
    if p.quantum_task ≠ expected then
      { action := PolicyAction.REJECT_WITH_ALTERNATIVE, rule_id := "TASK_MAPPING_VERIFICATION",
        message := "Task mapping mismatch for state " ++ p.quantum_state,
        alternatives := some [expected] }
    else
      { action := PolicyAction.ACCEPT, rule_id := "QUANTUM_VALIDATION",
        message := "Quantum state " ++ p.quantum_state ++ " validated for task " ++ expected }

/-- Python `str.lower()` restricted to the ASCII range (all compared
targets are ASCII). -/
def pyLower (s : String) : String := String.mk (s.data.map Char.toLower)

/-- `^0x[a-fA-F0-9]$` character class. -/
def isHexDigitAny (c : Char) : Bool :=
  ('0' ≤ c && c ≤ '9') || ('a' ≤ c && c ≤ 'f') || ('A' ≤ c && c ≤ 'F')

/-- `re.match(r'^0x[a-fA-F0-9]{40}$', s)` viewed as a Boolean test. -/
def addrMatch (s : String) : Bool :=
  match s.data with
  | '0' :: 'x' :: rest => rest.length = 40 && rest.all isHexDigitAny
  | _ => false

/-- `valid_targets` from `validate_blockchain_operations`. -/
def valid_targets : List String := ["floating_dragon", "omnichain", "ethereum"]

/-- `validate_blockchain_operations`. -/
def validate_blockchain_operations (p : Proposal) : PolicyResult :=
  let target := pyLower p.blockchain_target
  if ¬ valid_targets.contains target then
    { action := PolicyAction.REJECT_WITH_ALTERNATIVE, rule_id := "FLOATING_DRAGON_VERIFICATION",
      message := "Unsupported blockchain target: " ++ target, alternatives := some valid_targets }
  else if p.contract_address ≠ "" ∧ ¬ addrMatch p.contract_address then
    { action := PolicyAction.REJECT_WITH_ERROR, rule_id := "INFINITY_CLAIM_VALIDATION",
      message := "Invalid contract address format: " ++ p.contract_address }
  else
    { action := PolicyAction.ACCEPT, rule_id := "BLOCKCHAIN_VALIDATION",
      message := "Blockchain operations validated for target " ++ target }

/-- `protected_endpoints` from `validate_security_requirements`. -/
def protected_endpoints : List String := ["/init", "/mint", "/setProvenance"]

/-- `validate_security_requirements`. -/
def validate_security_requirements (p : Proposal) : PolicyResult :=
  if protected_endpoints.contains p.security_endpoint ∧ p.authorized_email ≠ CREATOR_EMAIL then
    { action := PolicyAction.REJECT_AND_LOG, rule_id := "ZERO_TRUST_ACCESS",
      message := "Unauthorized access to protected endpoint " ++ p.security_endpoint }
  else if p.git_operation ∧ ¬ p.signed_commit then
    { action := PolicyAction.REJECT_WITH_ERROR, rule_id := "SIGNED_COMMIT_REQUIREMENT",
      message := "All git operations must use signed commits" }
  else
    { action := PolicyAction.ACCEPT, rule_id := "SECURITY_VALIDATION",
      message := "Security requirements validated" }

/-- `validate_axiom_compliance`. -/
def validate_axiom_compliance (p : Proposal) : PolicyResult :=
  if p.operation_layer = "orchestration" ∧ p.command_authority then
    { action := PolicyAction.REJECT_PERMANENT, rule_id := "SOVEREIGN_HIERARCHY_VIOLATION",
      message := "Orchestration layer cannot have command authority" }
  else if p.state_mutation ∧ p.ai_output_dependency then
    { action := PolicyAction.REJECT_PERMANENT, rule_id := "DETERMINISM_VIOLATION",
      message := "State mutations cannot depend on AI outputs" }
  else if p.state_mutation ∧ ¬ p.deterministic_rules then
    { action := PolicyAction.REJECT_WITH_ERROR, rule_id := "DETERMINISM_REQUIREMENT",
      message := "State mutations must be derived from deterministic rules" }
  else
    { action := PolicyAction.ACCEPT, rule_id := "AXIOM_COMPLIANCE",
      message := "Hardened Axioms compliance validated" }

/-- `enforce_policy(proposal)` with the default empty `signature` (so the
HMAC branch is skipped): run the five validators in order and return the
first non-ACCEPT result, else the final ACCEPT with its metadata (`now` is
the formatted `datetime.now(timezone.utc)` reading). -/
def enforce_policy (p : Proposal) (now : String) : PolicyResult :=
  let r1 := validate_creator_authorization p
  if r1.action ≠ PolicyAction.ACCEPT then r1
  else
    let r2 := validate_quantum_state p
    if r2.action ≠ PolicyAction.ACCEPT then r2
    else
      let r3 := validate_blockchain_operations p
      if r3.action ≠ PolicyAction.ACCEPT then r3
      else
        let r4 := validate_security_requirements p
        if r4.action ≠ PolicyAction.ACCEPT then r4
        else
          let r5 := validate_axiom_compliance p
          if r5.action ≠ PolicyAction.ACCEPT then r5
          else
            { action := PolicyAction.ACCEPT, rule_id := "FULL_VALIDATION",
              message := "Proposal fully validated and accepted",
              metadata := some [("cruz_theorem", CRUZ_EQUATION),
                ("execution_state", "SYMBIONIC-EXECUTION"), ("validation_timestamp", now)] }

end Policy

/-! ### violet-af-quantum-agent quantum_sequence_trigger.py -/

namespace Violet

/-- `VioletAfQuantumAgent.TASK_MAPPINGS`, in source order. -/
def TASK_MAPPINGS : List (String × String) :=
  [("101", "generate_webapk_manifest"), ("100", "deploy_cloudflare_worker"),
   ("011", "configure_zero_trust"), ("010", "update_github_security"),
   ("001", "mint_infinity_claim"), ("000", "reflect_chain_sync"),
   ("110", "autonomous_maintenance"), ("111", "emergency_protocols")]

/-- `get_task_mapping`: `self.TASK_MAPPINGS.get(quantum_state, "unknown_task")`. -/
def get_task_mapping (quantum_state : String) : String :=
  (TASK_MAPPINGS.lookup quantum_state).getD "unknown_task"

end Violet

/-! ### violet-af-quantum-agent blockchain_automation.py -/

namespace Blockchain

/-- The mock contract address generated inside `simulate_deployment`:
`"0x" + hashlib.sha256(f"{chain_id}:{contract}:{time.time()}".encode()).hexdigest()[:40]`
(`timeStr` is the formatted `time.time()` reading). -/
def mock_address (chain_id contract timeStr : String) : String :=
  "0x" ++ String.mk ((sha256_hex (utf8 (chain_id ++ ":" ++ contract ++ ":" ++ timeStr))).data.take 40)

end Blockchain

/-! ### violet-af-quantum-agent reflect_logger.py -/

namespace Reflect

/-- The default `creator_uid` of a freshly constructed `ReflectLogger`. -/
def creator_uid : String := "ALC-ROOT-1010-1111-XCOV∞"

/-- A `ReflectEntry`, restricted to the fields `verify_chain_integrity`
reads (`creator_uid`, `data`, `chain_hash`) plus `entry_type` and
`timestamp`; the `uid` (MD5-derived) and `sovereignty_signature`
(SHA-512-derived) fields are never read back by the integrity check and are
omitted from the model. -/
structure Entry where
  timestamp : String
  creator_uid : String
  entry_type : String
  data : J
  chain_hash : String

/-- `_calculate_chain_hash(entry_data, previous_hash)`:
`sha256(f"{previous_hash}:{entry_data}:{self.creator_uid}")`. -/
def calculate_chain_hash (entry_data previous_hash : String) : String :=
  sha256_hex (utf8 (previous_hash ++ ":" ++ entry_data ++ ":" ++ creator_uid))

/-- `_add_entry`: serialize `data` with `json.dumps(data, sort_keys=True)`,
chain-hash it against the last entry's hash (or `""` for the first entry),
and append the new entry. -/
def add_entry (chain : List Entry) (entry_type : String) (data : J) (timestamp : String) :
    List Entry :=
  let data_json := dumpsSortedDefault data
  let previous_hash := match chain.getLast? with
    | some e => e.chain_hash
    | none => ""
  chain ++ [⟨timestamp, creator_uid, entry_type, data,
    calculate_chain_hash data_json previous_hash⟩]

/-- The hash-progression loop of `verify_chain_integrity`: entry `i`'s
`chain_hash` must equal the hash of its data against entry `i-1`'s hash
(`prev` starts as `""`). -/
def hashProgression (prev : String) : List Entry → Bool
  | [] => true
  | e :: rest =>
    (e.chain_hash == calculate_chain_hash (dumpsSortedDefault e.data) prev) &&
      hashProgression e.chain_hash rest

/-- `verify_chain_integrity`: every entry's `creator_uid` matches and the
chain hashes progress correctly (an empty chain verifies). -/
def verify_chain_integrity (chain : List Entry) : Bool :=
  chain.all (fun e => e.creator_uid == creator_uid) && hashProgression "" chain

/-- `log_quantum_execution`: build the entry data dict and add it. -/
def log_quantum_execution (chain : List Entry) (quantum_state circuit_hash : String)
    (measurement_results task_mapping : List (String × J)) (entanglement_pattern : String)
    (timestamp : String) : List Entry :=
  add_entry chain "quantum_execution"
    (J.obj [("quantum_state", J.str quantum_state), ("circuit_hash", J.str circuit_hash),
      ("measurement_results", J.obj measurement_results), ("task_mapping", J.obj task_mapping),
      ("entanglement_pattern", J.str entanglement_pattern),
      ("execution_timestamp", J.str timestamp)]) timestamp

/-- `log_automation_operation`. -/
def log_automation_operation (chain : List Entry) (operation_type target : String)
    (parameters result : List (String × J)) (quantum_trigger_uid : Option String)
    (sovereignty_level : String) (timestamp : String) : List Entry :=
  add_entry chain "automation_operation"
    (J.obj [("operation_type", J.str operation_type), ("target", J.str target),
      ("parameters", J.obj parameters), ("result", J.obj result),
      ("quantum_trigger_uid", match quantum_trigger_uid with
        | some u => J.str u
        | none => J.null),
      ("sovereignty_level", J.str sovereignty_level),
      ("execution_timestamp", J.str timestamp)]) timestamp

/-- `log_security_event` (`**(additional_data or {})` merges into the dict). -/
def log_security_event (chain : List Entry) (event_type severity description : String)
    (affected_components mitigation_actions : List String)
    (additional_data : List (String × J)) (timestamp : String) : List Entry :=
  add_entry chain "security_event"
    (J.obj (pyUpdate
      [("event_type", J.str event_type), ("severity", J.str severity),
       ("description", J.str description),
       ("affected_components", J.arr (affected_components.map J.str)),
       ("mitigation_actions", J.arr (mitigation_actions.map J.str)),
       ("detection_timestamp", J.str timestamp)] additional_data)) timestamp

/-- `log_sovereignty_verification` (`corrective_actions or []`). -/
def log_sovereignty_verification (chain : List Entry) (verification_type : String)
    (verification_result : Bool) (verification_details : List (String × J))
    (corrective_actions : Option (List String)) (timestamp : String) : List Entry :=
  add_entry chain "sovereignty_verification"
    (J.obj [("verification_type", J.str verification_type),
      ("verification_result", J.bool verification_result),
      ("verification_details", J.obj verification_details),
      ("corrective_actions", J.arr ((corrective_actions.getD []).map J.str)),
      ("verification_timestamp", J.str timestamp)]) timestamp

/-- One call to any of the four public logging methods, with its arguments
(the timestamp argument stands for the `datetime.utcnow()` reading). -/
inductive LogCall where
  | quantum (quantum_state circuit_hash : String)
      (measurement_results task_mapping : List (String × J))
      (entanglement_pattern timestamp : String)
  | automation (operation_type target : String) (parameters result : List (String × J))
      (quantum_trigger_uid : Option String) (sovereignty_level timestamp : String)
  | security (event_type severity description : String)
      (affected_components mitigation_actions : List String)
      (additional_data : List (String × J)) (timestamp : String)
  | sovereignty (verification_type : String) (verification_result : Bool)
      (verification_details : List (String × J)) (corrective_actions : Option (List String))
      (timestamp : String)

/-- Dispatch one logging call against the current chain. -/
def applyCall (chain : List Entry) : LogCall → List Entry
  | LogCall.quantum qs ch mr tm ep ts => log_quantum_execution chain qs ch mr tm ep ts
  | LogCall.automation op tg ps rs qtu lvl ts =>
    log_automation_operation chain op tg ps rs qtu lvl ts
  | LogCall.security et sev d ac ma ad ts => log_security_event chain et sev d ac ma ad ts
  | LogCall.sovereignty vt vr vd ca ts => log_sovereignty_verification chain vt vr vd ca ts

/-- Run a sequence of logging calls on a freshly constructed logger
(empty chain). -/
def runCalls (calls : List LogCall) : List Entry := calls.foldl applyCall []

end Reflect

/-! ### Statement helpers and the spec-side signature rule -/

/-- The top-level keys of a JSON object (empty for non-objects). -/
def jKeys (v : J) : List String :=
  match v with
  | J.obj kvs => kvs.map Prod.fst
  | _ => []

/-- Top-level key lookup on a JSON object. -/
def jGet (v : J) (k : String) : Option J :=
  match v with
  | J.obj kvs => kvs.lookup k
  | _ => none

/-- Modelled from the spec (section 6), for comparison with the code's
signing sites: "Signature = HMAC-SHA3-256 over the canonical (sorted-key,
separator-compact) JSON of all fields except `sig`, keyed by
`SHA3-256(UID + \"::QEL\")` hex-digest bytes." -/
def specSignature (fields : List (String × J)) : String :=
  hmacSha3Hex (utf8 (sha3_256_hex (utf8 ("ALC-ROOT-1010-1111-XCOV∞" ++ "::QEL"))))
    (utf8 (jdump "," ":" (sortJ (J.obj (fields.filter (fun p => ¬ p.1 = "sig"))))))

set_option maxRecDepth 1000000
set_option maxHeartbeats 2000000

/-! ### Digest shape lemmas -/

theorem length_leBytes (k : Nat) : ∀ n, (leBytes k n).length = k := by
  induction k with
  | zero => intro n; rfl
  | succ k ih => intro n; simp [leBytes, ih]

theorem mem_leBytes_lt (k : Nat) : ∀ n b, b ∈ leBytes k n → b < 256 := by
  induction k with
  | zero => intro n b h; simp [leBytes] at h
  | succ k ih =>
    intro n b h
    simp only [leBytes, List.mem_cons] at h
    rcases h with h | h
    · subst h; omega
    · exact ih _ b h

theorem sha3_256_length (msg : List Nat) : (sha3_256 msg).length = 32 := by
  simp [sha3_256, length_leBytes]

theorem sha3_256_lt (msg : List Nat) : ∀ b ∈ sha3_256 msg, b < 256 := by
  intro b hb
  simp only [sha3_256, List.mem_append] at hb
  rcases hb with ((h | h) | h) | h <;> exact mem_leBytes_lt 8 _ b h

theorem isHex_hexDigitCh (n : Nat) : Policy.isHexDigitAny (hexDigitCh n) = true := by
  unfold hexDigitCh
  split
  · next h => interval_cases n <;> decide
  · split
    · next h1 h2 => interval_cases n <;> decide
    · decide

theorem length_flatMap_byteHex (l : List Nat) : (l.flatMap byteHex).length = 2 * l.length := by
  induction l with
  | nil => rfl
  | cons b r ih =>
    rw [List.flatMap_cons, List.length_append, ih]
    simp [byteHex]
    omega

theorem mem_flatMap_byteHex (l : List Nat) :
    ∀ c ∈ l.flatMap byteHex, Policy.isHexDigitAny c = true := by
  induction l with
  | nil => intro c h; simp at h
  | cons b r ih =>
    intro c h
    rw [List.flatMap_cons, List.mem_append] at h
    rcases h with h | h
    · simp only [byteHex, List.mem_cons] at h
      rcases h with h | h | h <;> first
        | (subst h; exact isHex_hexDigitCh _)
        | simp at h
    · exact ih c h

theorem bytesToHex_length (l : List Nat) : (bytesToHex l).length = 2 * l.length := by
  show (l.flatMap byteHex).length = 2 * l.length
  exact length_flatMap_byteHex l

theorem bytesToHex_all (l : List Nat) :
    ∀ c ∈ (bytesToHex l).data, Policy.isHexDigitAny c = true :=
  mem_flatMap_byteHex l

theorem hmacSha3Hex_length (key msg : List Nat) : (hmacSha3Hex key msg).length = 64 := by
  rw [hmacSha3Hex, bytesToHex_length, hmacSha3]
  rw [sha3_256_length]

theorem hmacSha3Hex_all (key msg : List Nat) :
    ∀ c ∈ (hmacSha3Hex key msg).data, Policy.isHexDigitAny c = true :=
  bytesToHex_all _

theorem sha256Block_length (hs block : List Nat) : (sha256Block hs block).length = 8 := by
  simp [sha256Block]

theorem foldl_sha256Block_length :
    ∀ (blocks : List (List Nat)) (hs : List Nat), hs.length = 8 →
      (blocks.foldl sha256Block hs).length = 8 := by
  intro blocks
  induction blocks with
  | nil => intro hs h; exact h
  | cons b r ih => intro hs _; exact ih (sha256Block hs b) (sha256Block_length hs b)

theorem length_flatten_beBytes4 (l : List Nat) :
    ((l.map beBytes4).flatten).length = 4 * l.length := by
  induction l with
  | nil => rfl
  | cons w r ih =>
    rw [List.map_cons, List.flatten_cons, List.length_append, ih]
    simp [beBytes4]
    omega

theorem mem_flatten_beBytes4 (l : List Nat) : ∀ b ∈ (l.map beBytes4).flatten, b < 256 := by
  induction l with
  | nil => intro b h; simp at h
  | cons w r ih =>
    intro b h
    simp only [List.map_cons, List.flatten_cons, List.mem_append] at h
    rcases h with h | h
    · simp only [beBytes4, List.mem_cons] at h
      rcases h with h | h | h | h | h <;> first
        | (subst h; omega)
        | simp at h
    · exact ih b h

theorem sha256_length (msg : List Nat) : (sha256 msg).length = 32 := by
  show (((chunksOfSucc 63 (padSha256 msg)).foldl sha256Block sha256H0).map beBytes4).flatten.length = 32
  rw [length_flatten_beBytes4, foldl_sha256Block_length _ _ (by rfl)]

theorem sha256_lt (msg : List Nat) : ∀ b ∈ sha256 msg, b < 256 := by
  intro b hb
  exact mem_flatten_beBytes4 _ b hb

theorem sha256_hex_data_length (msg : List Nat) : (sha256_hex msg).data.length = 64 := by
  show ((sha256 msg).flatMap byteHex).length = 64
  rw [length_flatMap_byteHex, sha256_length]

theorem sha256_hex_all (msg : List Nat) :
    ∀ c ∈ (sha256_hex msg).data, Policy.isHexDigitAny c = true :=
  bytesToHex_all _

/-! ### Lookup lemmas -/

theorem lookup_eq_none_of_forall {β : Type} :
    ∀ (l : List (String × β)) (s : String), (∀ p ∈ l, p.1 ≠ s) → l.lookup s = none := by
  intro l
  induction l with
  | nil => intro s _; rfl
  | cons q r ih =>
    intro s h
    have hq : q.1 ≠ s := h q (by simp)
    have : (s == q.1) = false := beq_eq_false_iff_ne.mpr (fun hs => hq hs.symm)
    simp only [List.lookup, this]
    exact ih s (fun p hp => h p (by simp [hp]))

theorem lookup_sig_append (kvs : List (String × J)) (v : J)
    (h : "sig" ∉ kvs.map Prod.fst) : (kvs ++ [("sig", v)]).lookup "sig" = some v := by
  induction kvs with
  | nil => rfl
  | cons q r ih =>
    have hq : q.1 ≠ "sig" := by
      intro hv
      exact h (by simp [← hv])
    have : ("sig" == q.1) = false := beq_eq_false_iff_ne.mpr (fun hs => hq hs.symm)
    simp only [List.cons_append, List.lookup, this]
    exact ih (fun hm => h (by simp [List.map_cons, hm]))

theorem filter_ne_sig_eq_self (kvs : List (String × J))
    (h : "sig" ∉ kvs.map Prod.fst) :
    kvs.filter (fun p => ¬ p.1 = "sig") = kvs := by
  apply List.filter_eq_self.mpr
  intro p hp
  have : p.1 ≠ "sig" := by
    intro hv
    exact h (by simp [← hv]; exact ⟨p.2, by simpa [← hv] using hp⟩)
  simp [this]

theorem macOf_append_sig (kvs : List (String × J)) (v : J) :
    Hub.macOf (kvs ++ [("sig", v)]) = Hub.macOf kvs := by
  unfold Hub.macOf
  rw [List.filter_append]
  simp

/-! ### ReflectChain integrity lemmas -/

theorem hashProgression_append (e : Reflect.Entry) :
    ∀ (chain : List Reflect.Entry) (prev : String),
      Reflect.hashProgression prev chain = true →
      e.chain_hash = Reflect.calculate_chain_hash (dumpsSortedDefault e.data)
        (match chain.getLast? with
          | some x => x.chain_hash
          | none => prev) →
      Reflect.hashProgression prev (chain ++ [e]) = true := by
  intro chain
  induction chain with
  | nil =>
    intro prev _ he
    simp only [List.nil_append, Reflect.hashProgression, Bool.and_eq_true]
    refine ⟨?_, trivial⟩
    simp only [List.getLast?_nil] at he
    simp [he]
  | cons x rest ih =>
    intro prev hp he
    simp only [Reflect.hashProgression, Bool.and_eq_true] at hp
    simp only [List.cons_append, Reflect.hashProgression, Bool.and_eq_true]
    refine ⟨hp.1, ?_⟩
    apply ih x.chain_hash hp.2
    cases rest with
    | nil => simpa using he
    | cons y rest2 => simpa [List.getLast?_cons_cons] using he

theorem verify_add_entry (chain : List Reflect.Entry) (et : String) (data : J) (ts : String)
    (h : Reflect.verify_chain_integrity chain = true) :
    Reflect.verify_chain_integrity (Reflect.add_entry chain et data ts) = true := by
  simp only [Reflect.verify_chain_integrity, Bool.and_eq_true] at h
  simp only [Reflect.verify_chain_integrity, Reflect.add_entry, Bool.and_eq_true]
  constructor
  · rw [List.all_append, h.1]
    simp
  · exact hashProgression_append _ chain "" h.2 rfl

theorem verify_foldl_calls :
    ∀ (calls : List Reflect.LogCall) (chain : List Reflect.Entry),
      Reflect.verify_chain_integrity chain = true →
      Reflect.verify_chain_integrity (calls.foldl Reflect.applyCall chain) = true := by
  intro calls
  induction calls with
  | nil => intro chain h; exact h
  | cons c r ih =>
    intro chain h
    refine ih (Reflect.applyCall chain c) ?_
    cases c with
    | quantum qs ch mr tm ep ts => exact verify_add_entry chain _ _ _ h
    | automation op tg ps rs qtu lvl ts => exact verify_add_entry chain _ _ _ h
    | security et sev d ac ma ad ts => exact verify_add_entry chain _ _ _ h
    | sovereignty vt vr vd ca ts => exact verify_add_entry chain _ _ _ h

/-! ### Claims -/

/-- Claim C8: the heartbeat daemon's error handling silently swallows all
failures: `battery()` is total and returns `{}` whenever reading the
battery status fails for any reason, and `push()` returns normally whatever
the outcome of the HTTP POST is. -/
theorem claim_c8 :
    (∀ e : String, Daemon.battery (Except.error e) = J.obj []) ∧
    (∀ http : Except String Unit, Daemon.pushOutcome http = Except.ok ()) := by
  constructor
  · intro e; rfl
  · intro http; cases http <;> rfl

/-- Claim C10: after any sequence of logging calls on a freshly constructed
`ReflectLogger`, `verify_chain_integrity` returns `True`: every entry's
`creator_uid` is the logger's creator UID and each entry's `chain_hash` is
the SHA-256 chain hash of its sorted-key data JSON against the previous
entry's hash (`""` for the first entry). -/
theorem claim_c10 (calls : List Reflect.LogCall) :
    Reflect.verify_chain_integrity (Reflect.runCalls calls) = true ∧
    (Reflect.runCalls calls).all (fun e => e.creator_uid == Reflect.creator_uid) = true := by
  have h := verify_foldl_calls calls [] rfl
  have h2 := h
  simp only [Reflect.verify_chain_integrity, Bool.and_eq_true] at h2
  exact ⟨h, h2.1⟩

/-- Claim C4: `enforce_policy` accepts only proposals whose `creator_uid`
and `creator_email` equal the hardcoded creator constants; if either
differs, `validate_creator_authorization` returns `REJECT_IMMEDIATE` and
`enforce_policy` returns exactly that rejection. -/
theorem claim_c4 (p : Policy.Proposal) (now : String) :
    ((Policy.enforce_policy p now).action = Policy.PolicyAction.ACCEPT →
      p.creator_uid = Policy.CREATOR_UID ∧ p.creator_email = Policy.CREATOR_EMAIL) ∧
    ((p.creator_uid ≠ Policy.CREATOR_UID ∨ p.creator_email ≠ Policy.CREATOR_EMAIL) →
      (Policy.validate_creator_authorization p).action = Policy.PolicyAction.REJECT_IMMEDIATE ∧
        Policy.enforce_policy p now = Policy.validate_creator_authorization p) := by
  by_cases h1 : p.creator_uid = Policy.CREATOR_UID
  · by_cases h2 : p.creator_email = Policy.CREATOR_EMAIL
    · constructor
      · intro _; exact ⟨h1, h2⟩
      · intro h
        cases h with
        | inl h => exact absurd h1 h
        | inr h => exact absurd h2 h
    · constructor
      · intro hacc
        exfalso
        simp [Policy.enforce_policy, Policy.validate_creator_authorization, h1, h2] at hacc
      · intro _
        constructor
        · simp [Policy.validate_creator_authorization, h1, h2]
        · simp [Policy.enforce_policy, Policy.validate_creator_authorization, h1, h2]
  · constructor
    · intro hacc
      exfalso
      simp [Policy.enforce_policy, Policy.validate_creator_authorization, h1] at hacc
    · intro _
      constructor
      · simp [Policy.validate_creator_authorization, h1]
      · simp [Policy.enforce_policy, Policy.validate_creator_authorization, h1]

/-- Witness for C4: a proposal with a wrong creator UID is rejected
immediately, and `enforce_policy` returns that rejection. -/
theorem claim_c4_witness :
    (Policy.validate_creator_authorization { creator_uid := "evil" }).action =
      Policy.PolicyAction.REJECT_IMMEDIATE ∧
    Policy.enforce_policy { creator_uid := "evil" } "2026-10-12T00:00:00+00:00" =
      Policy.validate_creator_authorization { creator_uid := "evil" } :=
  (claim_c4 { creator_uid := "evil" } "2026-10-12T00:00:00+00:00").2 (Or.inl (by decide))

/-- Claim C7: every event built by `emit` (base.py) and `push`
(daemon_heartbeat.py) has exactly the keys `type, uid, kind, source,
project, ts, nonce, payload, sig`, with `type = "omni.event"`, `uid` the
hardcoded UID, an integer `ts`, `nonce` computed modulo `2^32` (so below
`2^32`), and `sig` a 64-character lowercase-hex HMAC-SHA3-256 string. -/
theorem claim_c7 (kind source project : String) (payload data : J) (ts : Int) (ms : Nat) :
    jKeys (Base.emitSigned kind source project payload ts ms) =
      ["type", "uid", "kind", "source", "project", "ts", "nonce", "payload", "sig"] ∧
    jGet (Base.emitSigned kind source project payload ts ms) "type" = some (J.str "omni.event") ∧
    jGet (Base.emitSigned kind source project payload ts ms) "uid" = some (J.str Base.UID) ∧
    jGet (Base.emitSigned kind source project payload ts ms) "ts" = some (J.int ts) ∧
    jGet (Base.emitSigned kind source project payload ts ms) "nonce" =
      some (J.int (Int.ofNat (ms % 2 ^ 32))) ∧
    jGet (Base.emitSigned kind source project payload ts ms) "payload" = some payload ∧
    jGet (Base.emitSigned kind source project payload ts ms) "sig" =
      some (J.str (Base.sign (Base.emitEvent kind source project payload ts ms))) ∧
    ms % 2 ^ 32 < 2 ^ 32 ∧
    (Base.sign (Base.emitEvent kind source project payload ts ms)).length = 64 ∧
    (Base.sign (Base.emitEvent kind source project payload ts ms)).data.all
      Policy.isHexDigitAny = true ∧
    jKeys (Daemon.pushSigned kind data ts ms) =
      ["type", "uid", "kind", "source", "project", "ts", "nonce", "payload", "sig"] ∧
    jGet (Daemon.pushSigned kind data ts ms) "type" = some (J.str "omni.event") ∧
    jGet (Daemon.pushSigned kind data ts ms) "uid" = some (J.str Daemon.UID) ∧
    jGet (Daemon.pushSigned kind data ts ms) "source" = some (J.str "s24-ultra") ∧
    jGet (Daemon.pushSigned kind data ts ms) "project" = some (J.str "general") ∧
    jGet (Daemon.pushSigned kind data ts ms) "nonce" =
      some (J.int (Int.ofNat (ms % 2 ^ 32))) ∧
    jGet (Daemon.pushSigned kind data ts ms) "sig" =
      some (J.str (Daemon.sign (Daemon.pushEvent kind data ts ms))) ∧
    (Daemon.sign (Daemon.pushEvent kind data ts ms)).length = 64 ∧
    (Daemon.sign (Daemon.pushEvent kind data ts ms)).data.all Policy.isHexDigitAny = true := by
  refine ⟨rfl, rfl, rfl, rfl, rfl, rfl, rfl, Nat.mod_lt _ (by decide), ?_, ?_,
    rfl, rfl, rfl, rfl, rfl, rfl, rfl, ?_, ?_⟩
  · exact hmacSha3Hex_length _ _
  · exact List.all_eq_true.mpr (hmacSha3Hex_all _ _)
  · exact hmacSha3Hex_length _ _
  · exact List.all_eq_true.mpr (hmacSha3Hex_all _ _)

/-- Claim C5: the quantum-state-to-task mapping is a fixed lookup table:
`get_task_mapping` returns the table entry on the eight 3-bit strings and
`"unknown_task"` on every other string, and `validate_quantum_state`
accepts exactly when the proposal's state is one of the eight 3-bit
strings and its task is that same table's entry for the state. -/
theorem claim_c5 :
    (Violet.get_task_mapping "101" = "generate_webapk_manifest" ∧
     Violet.get_task_mapping "100" = "deploy_cloudflare_worker" ∧
     Violet.get_task_mapping "011" = "configure_zero_trust" ∧
     Violet.get_task_mapping "010" = "update_github_security" ∧
     Violet.get_task_mapping "001" = "mint_infinity_claim" ∧
     Violet.get_task_mapping "000" = "reflect_chain_sync" ∧
     Violet.get_task_mapping "110" = "autonomous_maintenance" ∧
     Violet.get_task_mapping "111" = "emergency_protocols") ∧
    (∀ s : String, s ∉ Policy.valid_states → Violet.get_task_mapping s = "unknown_task") ∧
    (∀ p : Policy.Proposal,
      (Policy.validate_quantum_state p).action = Policy.PolicyAction.ACCEPT ↔
        p.quantum_state ∈ Policy.valid_states ∧
          p.quantum_task = Violet.get_task_mapping p.quantum_state) := by
  refine ⟨by decide, ?_, ?_⟩
  · intro s hs
    have hlk : Violet.TASK_MAPPINGS.lookup s = none := by
      apply lookup_eq_none_of_forall
      intro q hq hqs
      refine hs ?_
      simp only [Violet.TASK_MAPPINGS, List.mem_cons, List.not_mem_nil, or_false] at hq
      rcases hq with h|h|h|h|h|h|h|h <;> (subst h; rw [← hqs]; decide)
    simp [Violet.get_task_mapping, hlk]
  · intro p
    by_cases hc : Policy.valid_states.contains p.quantum_state
    · have hmem : p.quantum_state ∈ Policy.valid_states := by
        simpa [List.contains] using hc
      have hmem2 := hmem
      simp only [Policy.valid_states, List.mem_cons, List.not_mem_nil, or_false] at hmem2
      rcases hmem2 with h|h|h|h|h|h|h|h <;>
        (simp only [Policy.validate_quantum_state, h, Policy.task_mappings,
          Violet.get_task_mapping, Violet.TASK_MAPPINGS]
         split_ifs with ht <;>
         simp_all [Policy.valid_states, List.lookup])
    · have hmem : p.quantum_state ∉ Policy.valid_states := by
        intro hm
        exact hc (by simpa [List.contains] using hm)
      simp [Policy.validate_quantum_state, hc, hmem]

/-- Witness for C5: a non-3-bit string maps to `unknown_task`, and a
proposal pairing state `101` with `generate_webapk_manifest` is accepted
by the quantum validator. -/
theorem claim_c5_witness :
    Violet.get_task_mapping "xyz" = "unknown_task" ∧
    (Policy.validate_quantum_state
      { quantum_state := "101", quantum_task := "generate_webapk_manifest" }).action =
      Policy.PolicyAction.ACCEPT :=
  ⟨claim_c5.2.1 "xyz" (by decide),
   (claim_c5.2.2 { quantum_state := "101", quantum_task := "generate_webapk_manifest" }).mpr
     ⟨by decide, by decide⟩⟩


/-- Any `"0x"`-plus-40-hex-characters string matches the contract address
format `^0x[a-fA-F0-9]{40}$` checked by `validate_blockchain_operations`. -/
theorem addrMatch_of_hex40 (t : List Char) (h1 : t.length = 40)
    (h2 : t.all Policy.isHexDigitAny = true) :
    Policy.addrMatch ("0x" ++ String.mk t) = true := by
  unfold Policy.addrMatch
  rw [String.data_append]
  simp [h1, h2]

/-- Claim C6: every mock contract address generated by `simulate_deployment`
(`"0x"` plus the first 40 hex characters of a SHA-256 digest) matches the
`^0x[a-fA-F0-9]{40}$` format, and `validate_blockchain_operations` accepts
a proposal carrying such an address for a valid target. -/
theorem claim_c6 (chain_id contract timeStr : String) (p : Policy.Proposal) :
    Policy.addrMatch (Blockchain.mock_address chain_id contract timeStr) = true ∧
    (Policy.valid_targets.contains (Policy.pyLower p.blockchain_target) = true →
      p.contract_address = Blockchain.mock_address chain_id contract timeStr →
      (Policy.validate_blockchain_operations p).action = Policy.PolicyAction.ACCEPT) := by
  have haddr : Policy.addrMatch (Blockchain.mock_address chain_id contract timeStr) = true := by
    refine addrMatch_of_hex40 _ ?_ ?_
    · rw [List.length_take, sha256_hex_data_length]; decide
    · exact List.all_eq_true.mpr
        (fun c hc => sha256_hex_all _ c (List.take_subset _ _ hc))
  refine ⟨haddr, ?_⟩
  intro h1 h2
  simp only [Policy.validate_blockchain_operations, h1, h2, haddr]
  simp

/-- Witness for C6: a concrete generated address for the `ethereum` target
is accepted by the blockchain validator. -/
theorem claim_c6_witness :
    (Policy.validate_blockchain_operations
      { blockchain_target := "ethereum",
        contract_address := Blockchain.mock_address "1" "InfinityClaim" "1700000000.0" }).action =
      Policy.PolicyAction.ACCEPT :=
  (claim_c6 "1" "InfinityClaim" "1700000000.0"
    { blockchain_target := "ethereum",
      contract_address := Blockchain.mock_address "1" "InfinityClaim" "1700000000.0" }).2
    (by decide) rfl

/-- Claim C3: for events without a `sig` field, `sign` is HMAC-SHA3-256
over the sorted-key compact JSON of all fields, keyed by the ASCII bytes of
the hex digest of `SHA3-256(UID + "::QEL")`; the signing sites in base.py,
daemon_heartbeat.py and the axiom-dev-core reflect logger all compute this
same function (the spec-side rule is `specSignature`). -/
theorem claim_c3 (fields entry : List (String × J)) (tsMs : Nat)
    (hsig : "sig" ∉ fields.map Prod.fst)
    (hsig2 : "sig" ∉ (ADC.stampedFields entry tsMs).map Prod.fst) :
    Base.sign (J.obj fields) = specSignature fields ∧
    Daemon.sign (J.obj fields) = specSignature fields ∧
    ADC.stampSignature entry tsMs = specSignature (ADC.stampedFields entry tsMs) := by
  have h1 := filter_ne_sig_eq_self fields hsig
  have h2 := filter_ne_sig_eq_self _ hsig2
  refine ⟨?_, ?_, ?_⟩
  · unfold specSignature
    rw [h1]
    rfl
  · unfold specSignature
    rw [h1]
    rfl
  · unfold specSignature
    rw [h2]
    rfl

/-- Witness for C3: the three signing functions agree with the spec rule on
a concrete event. -/
theorem claim_c3_witness :
    Base.sign (J.obj [("uid", J.str "X")]) = specSignature [("uid", J.str "X")] ∧
    ADC.stampSignature [("type", J.str "t")] 5 =
      specSignature (ADC.stampedFields [("type", J.str "t")] 5) :=
  ⟨(claim_c3 [("uid", J.str "X")] [("type", J.str "t")] 5 (by decide) (by decide)).1,
   (claim_c3 [("uid", J.str "X")] [("type", J.str "t")] 5 (by decide) (by decide)).2.2⟩

/-- Claim C1 (failing input for sign-then-verify round-tripping): base.py's
`sign` serializes with `sort_keys=True`, which sorts keys at every nesting
level, but hub.py's `verify` rebuilds only the top level in sorted order
and serializes without `sort_keys=True`, so an event whose nested payload
keys are not already sorted fails verification even though its signature
was honestly produced with the same key. -/
theorem claim_c1 :
    Hub.verify (J.obj [("uid", J.str "X"), ("ts", J.int 1), ("nonce", J.int 2),
      ("payload", J.obj [("b", J.int 1), ("a", J.int 2)]),
      ("sig", J.str (Base.sign (J.obj [("uid", J.str "X"), ("ts", J.int 1),
        ("nonce", J.int 2), ("payload", J.obj [("b", J.int 1), ("a", J.int 2)])])))]) =
      Except.ok false := by
  rfl

/-- A little-endian byte list is bounded by `256 ^ length`. -/
theorem leLane_lt : ∀ (l : List Nat), (∀ b ∈ l, b < 256) → leLane l < 256 ^ l.length := by
  intro l
  induction l with
  | nil => intro _; simp [leLane]
  | cons b r ih =>
    intro h
    have hb : b < 256 := h b (by simp)
    have hr : leLane r < 256 ^ r.length := ih (fun x hx => h x (by simp [hx]))
    show leLane r * 256 + b < 256 ^ (r.length + 1)
    rw [pow_succ]
    nlinarith [hr, hb]

/-- Little-endian byte decoding is injective on equal-length byte lists. -/
theorem leLane_inj : ∀ (l1 l2 : List Nat), l1.length = l2.length →
    (∀ b ∈ l1, b < 256) → (∀ b ∈ l2, b < 256) → leLane l1 = leLane l2 → l1 = l2 := by
  intro l1
  induction l1 with
  | nil =>
    intro l2 hlen _ _ _
    cases l2 with
    | nil => rfl
    | cons c s => simp at hlen
  | cons b r ih =>
    intro l2 hlen h1 h2 heq
    cases l2 with
    | nil => simp at hlen
    | cons c s =>
      have hb : b < 256 := h1 b (by simp)
      have hc : c < 256 := h2 c (by simp)
      have heq2 : leLane r * 256 + b = leLane s * 256 + c := heq
      have hbc : b = c ∧ leLane r = leLane s := by omega
      have htail := ih s (by simpa using hlen) (fun x hx => h1 x (by simp [hx]))
        (fun x hx => h2 x (by simp [hx])) hbc.2
      rw [hbc.1, htail]

/-- Claim C2, counterexample to the universal statement: HMAC-SHA3-256 has
only finitely many digests, so by the pigeonhole principle there exist two
events `{"a": n}` and `{"a": m}` with `n ≠ m` whose signatures coincide;
replacing the value of field `a` by `m` after signing `{"a": n}` then still
verifies.  (No such collision is explicitly computable, but its existence
already refutes "mutating any field always makes verification fail".) -/
theorem claim_c2_counterexample :
    ¬ (∀ (n m : Int), n ≠ m →
        Hub.verify (J.obj [("a", J.int m),
          ("sig", J.str (Base.sign (J.obj [("a", J.int n)])))]) = Except.ok false) := by
  intro hclaim
  have hdig : ∀ n : Int,
      (hmacSha3 Base.KEY (utf8 (dumpsCanon (J.obj [("a", J.int n)])))).length = 32 ∧
      (∀ b ∈ hmacSha3 Base.KEY (utf8 (dumpsCanon (J.obj [("a", J.int n)]))), b < 256) := by
    intro n
    exact ⟨sha3_256_length _, sha3_256_lt _⟩
  obtain ⟨x, y, hxy, hfeq⟩ := Finite.exists_ne_map_eq_of_infinite
    (fun n : Int => (⟨leLane (hmacSha3 Base.KEY (utf8 (dumpsCanon (J.obj [("a", J.int n)])))), by
      have h := leLane_lt _ (hdig n).2
      rwa [(hdig n).1] at h⟩ : Fin (256 ^ 32)))
  have hdeq : hmacSha3 Base.KEY (utf8 (dumpsCanon (J.obj [("a", J.int x)]))) =
      hmacSha3 Base.KEY (utf8 (dumpsCanon (J.obj [("a", J.int y)]))) := by
    apply leLane_inj _ _ (by rw [(hdig x).1, (hdig y).1]) (hdig x).2 (hdig y).2
    exact congrArg Fin.val hfeq
  have hsig : Base.sign (J.obj [("a", J.int x)]) = Base.sign (J.obj [("a", J.int y)]) :=
    congrArg bytesToHex hdeq
  have hv := hclaim x y hxy
  have hv2 : Hub.verify (J.obj [("a", J.int y),
      ("sig", J.str (Base.sign (J.obj [("a", J.int x)])))]) =
      Except.ok (Base.sign (J.obj [("a", J.int x)]) == Base.sign (J.obj [("a", J.int y)])) := rfl
  rw [hv2, hsig] at hv
  simp at hv

/-- Claim C2 as amended: mutating fields after signing makes `verify`
return false whenever the mutated event's recomputed HMAC differs from the
original signature (an HMAC collision is the only exception, and one cannot
be exhibited explicitly). -/
theorem claim_c2_amended (kvs : List (String × J)) (e : J)
    (hsig : "sig" ∉ kvs.map Prod.fst)
    (hne : Base.sign e ≠ Hub.macOf kvs) :
    Hub.verify (J.obj (kvs ++ [("sig", J.str (Base.sign e))])) = Except.ok false := by
  have hl := lookup_sig_append kvs (J.str (Base.sign e)) hsig
  have hm := macOf_append_sig kvs (J.str (Base.sign e))
  simp only [Hub.verify, hl]
  rw [hm, beq_eq_false_iff_ne.mpr hne]

/-- Witness for the amended C2, on the spec's own example: sign
`{"uid":"X","ts":1,"nonce":2,"payload":{"a":1}}`, change `payload.a` to 2,
and verification fails (the two MACs are computed and differ). -/
theorem claim_c2_witness :
    Hub.verify (J.obj ([("uid", J.str "X"), ("ts", J.int 1), ("nonce", J.int 2),
      ("payload", J.obj [("a", J.int 2)])] ++
      [("sig", J.str (Base.sign (J.obj [("uid", J.str "X"), ("ts", J.int 1),
        ("nonce", J.int 2), ("payload", J.obj [("a", J.int 1)])])))])) = Except.ok false :=
  claim_c2_amended _ _ (by decide) (by decide)

/-- Claim C9 as amended: `/ingest` returns 403 "bad sig" and leaves the
queue and index untouched exactly when `verify` returns false (uncaught
exceptions from `verify` also leave the state untouched); every verified
body is enqueued, after which the handler returns `{"ok": True}` unless the
payload-indexing step raises (`chat`/`doc` events with a non-dict payload
or non-string text); and the ok response occurs only for verified bodies. -/
theorem claim_c9_amended (d : J) (st : Hub.HubState) :
    (Hub.verify d = Except.ok false →
      Hub.ingest d st = (Hub.Resp.httpExc 403 "bad sig", st)) ∧
    (∀ r : String, Hub.verify d = Except.error r →
      Hub.ingest d st = (Hub.Resp.err r, st)) ∧
    (Hub.verify d = Except.ok true →
      (Hub.ingest d st).2.queue = st.queue ++ [d] ∧
      ((Hub.ingest d st).1 = Hub.Resp.ok (J.obj [("ok", J.bool true)]) ∨
        (Hub.ingest d st).1 = Hub.Resp.err "AttributeError")) ∧
    ((Hub.ingest d st).1 = Hub.Resp.ok (J.obj [("ok", J.bool true)]) →
      Hub.verify d = Except.ok true) := by
  refine ⟨?_, ?_, ?_, ?_⟩
  · intro hv
    simp only [Hub.ingest, hv]
  · intro r hv
    simp only [Hub.ingest, hv]
  · intro hv
    cases d with
    | obj kvs =>
      simp only [Hub.ingest, hv]
      constructor
      · split
        · split
          · split
            · split <;> rfl
            · rfl
            · rfl
          · rfl
        · rfl
      · split
        · split
          · split
            · split
              · left; rfl
              · left; rfl
            · left; rfl
            · right; rfl
          · right; rfl
        · left; rfl
    | null => exact absurd hv (by simp [Hub.verify])
    | bool b => exact absurd hv (by simp [Hub.verify])
    | int n => exact absurd hv (by simp [Hub.verify])
    | str s => exact absurd hv (by simp [Hub.verify])
    | arr xs => exact absurd hv (by simp [Hub.verify])
  · intro hok
    cases hv : Hub.verify d with
    | error e =>
      simp only [Hub.ingest, hv] at hok
      simp at hok
    | ok b =>
      cases b with
      | false =>
        simp only [Hub.ingest, hv] at hok
        simp at hok
      | true => rfl

/-- Claim C9, counterexample to the statement as written: a correctly
signed `chat` event whose `payload` is the string `"x"` (not a dict)
verifies, is enqueued, but the handler then raises `AttributeError` inside
the indexing step instead of returning `{"ok": True}`. -/
theorem claim_c9_counterexample :
    Hub.verify (J.obj [("kind", J.str "chat"), ("payload", J.str "x"),
      ("sig", J.str (Base.sign (J.obj [("kind", J.str "chat"), ("payload", J.str "x")])))]) =
      Except.ok true ∧
    (Hub.ingest (J.obj [("kind", J.str "chat"), ("payload", J.str "x"),
      ("sig", J.str (Base.sign (J.obj [("kind", J.str "chat"), ("payload", J.str "x")])))])
      ⟨[], []⟩).1 = Hub.Resp.err "AttributeError" ∧
    Hub.Resp.err "AttributeError" ≠ Hub.Resp.ok (J.obj [("ok", J.bool true)]) := by
  refine ⟨rfl, rfl, ?_⟩
  intro h
  exact Hub.Resp.noConfusion h

/-- Witness for the amended C9: a body with a wrong signature is rejected
with 403 "bad sig" and the state is unchanged. -/
theorem claim_c9_witness :
    Hub.ingest (J.obj [("kind", J.str "x"), ("sig", J.str "00")]) ⟨[], []⟩ =
      (Hub.Resp.httpExc 403 "bad sig", (⟨[], []⟩ : Hub.HubState)) :=
  (claim_c9_amended (J.obj [("kind", J.str "x"), ("sig", J.str "00")]) ⟨[], []⟩).1 (by rfl)
